import Mathlib

/-!
Verification of the netzob fuzzing and vocabulary core.

Shallow embedding of:
- `src/netzob/Fuzzing/Generators/XorShiftGenerator.py`
- `src/netzob/Fuzzing/DeterministIntegerMutator.py`
- `src/netzob/Model/Vocabulary/Domain/Variables/Leafs/Data.py` (`domainCMP`)
- `src/netzob/Model/Vocabulary/Symbol.py` (equality)

Python machine integers are arbitrary precision; the xorshift recurrences
mask explicitly with `& 0xff` etc., which we translate as `&&& mask` on `Nat`.
Python's bounded recursion (`RecursionError` caught and turned into `None`)
is modelled by an explicit fuel parameter: exhausted fuel yields `none`,
exactly as the caught `RecursionError` yields `None` in `__inner_next__`.
-/

set_option maxRecDepth 10000

/-- Decidable equality of `Except` results, used to evaluate the embedded
functions on concrete inputs. -/
instance {ε α : Type} [DecidableEq ε] [DecidableEq α] : DecidableEq (Except ε α) := fun x y =>
  match x, y with
  | .ok a, .ok b =>
    if h : a = b then isTrue (by rw [h]) else isFalse (by intro hh; cases hh; exact h rfl)
  | .ok _, .error _ => isFalse (by intro h; cases h)
  | .error _, .ok _ => isFalse (by intro h; cases h)
  | .error e, .error f =>
    if h : e = f then isTrue (by rw [h]) else isFalse (by intro hh; cases hh; exact h rfl)

namespace Netzob

/-! ## XorShift core recurrences (XorShiftGenerator.py, lines 54-79) -/

/-- 8-bit xorshift step: `s ^= (s<<7)&0xff; s ^= (s>>5)&0xff; s ^= (s<<3)&0xff`. -/
def xorshift8 (state : Nat) : Nat :=
  let s1 := state ^^^ ((state <<< 7) &&& 0xff)
  let s2 := s1 ^^^ ((s1 >>> 5) &&& 0xff)
  s2 ^^^ ((s2 <<< 3) &&& 0xff)

/-- 16-bit xorshift step: shifts 13 / 9 / 7, masked to 16 bits. -/
def xorshift16 (state : Nat) : Nat :=
  let s1 := state ^^^ ((state <<< 13) &&& 0xffff)
  let s2 := s1 ^^^ ((s1 >>> 9) &&& 0xffff)
  s2 ^^^ ((s2 <<< 7) &&& 0xffff)

/-- 32-bit xorshift step: shifts 13 / 17 / 5, masked to 32 bits. -/
def xorshift32 (state : Nat) : Nat :=
  let s1 := state ^^^ ((state <<< 13) &&& 0xffffffff)
  let s2 := s1 ^^^ ((s1 >>> 17) &&& 0xffffffff)
  s2 ^^^ ((s2 <<< 5) &&& 0xffffffff)

/-- 64-bit xorshift step: shifts 11 / 5 / 32, masked to 64 bits. -/
def xorshift64 (state : Nat) : Nat :=
  let s1 := state ^^^ ((state <<< 11) &&& 0xffffffffffffffff)
  let s2 := s1 ^^^ ((s1 >>> 5) &&& 0xffffffffffffffff)
  s2 ^^^ ((s2 <<< 32) &&& 0xffffffffffffffff)

/-- Errors raised by `XorShiftGenerator.__init__` (both are `ValueError` in
Python; the spec names them `InvalidGeneratorSeed` / `UnsupportedBitWidth`). -/
inductive GenError where
  | invalidSeed
  | unsupportedBitWidth
deriving DecidableEq

/-- The mutable attributes of a `XorShiftGenerator` instance together with its
construction-time configuration: `seed`, `_minValue`, `_maxValue`, `_signed`,
`_bitsize` (immutable after `__init__`), and the mutable `_state`,
`_firstCall`, `_nbCall`. -/
@[ext]
structure XorShiftGenerator where
  seed : Nat
  minValue : Int
  maxValue : Int
  signed : Bool
  bitsize : Nat
  state : Nat
  firstCall : Bool
  nbCall : Nat
deriving DecidableEq

/-- Modelled from the spec: `AbstractType.computeUnitSize` is not under
`src/`; the spec fixes its contract as the smallest unit size able to
represent `n` distinct values, where the unit-size classes are
4/8/16/32/64 bits (the 4-bit class is rounded up to 8 afterwards by the
generator itself). A count too large for 64 bits has no class, reported
as `0` and rejected by `construct` as an unsupported bit width. -/
def computeUnitSize (n : Nat) : Nat :=
  if n ≤ 16 then 4
  else if n ≤ 256 then 8
  else if n ≤ 65536 then 16
  else if n ≤ 4294967296 then 32
  else if n ≤ 18446744073709551616 then 64
  else 0

namespace XorShiftGenerator

/-- Dispatch of `self._xorshift_func` selected in `__init__` (lines 151-161).
The fallback branch is unreachable for constructed generators: `__init__`
raises `ValueError` on any other bitsize. -/
def xorshiftFun (bitsize : Nat) : Nat → Nat :=
  if bitsize = 8 then xorshift8
  else if bitsize = 16 then xorshift16
  else if bitsize = 32 then xorshift32
  else if bitsize = 64 then xorshift64
  else id

/-- Two's-complement reinterpretation performed by
`result.to_bytes(bitsize//8, 'big', signed=False)` followed by
`int.from_bytes(..., signed=True)` (lines 192-194), for `v < 2^w`
(larger `v` makes Python's `to_bytes` raise `OverflowError`). -/
def toSigned (w : Nat) (v : Nat) : Int :=
  if v < 2 ^ (w - 1) then (v : Int) else (v : Int) - 2 ^ w

/-- `XorShiftGenerator.__inner_next__` (lines 181-203). The first pending
call forcibly returns `0` without advancing the state; otherwise the state
advances through the xorshift function. An out-of-interval result triggers
a recursive redraw; `fuel` models Python's recursion limit, and exhausting
it models the caught `RecursionError`, surfacing as `none`. -/
def innerNext : Nat → XorShiftGenerator → XorShiftGenerator × Option Int
  | 0, g => (g, none)
  | fuel + 1, g =>
    let gr : XorShiftGenerator × Nat :=
      if g.firstCall then ({ g with firstCall := false }, 0)
      else ({ g with state := xorshiftFun g.bitsize g.state },
            xorshiftFun g.bitsize g.state)
    let result : Int := if g.signed then toSigned g.bitsize gr.2 else (gr.2 : Int)
    if g.minValue ≤ result ∧ result ≤ g.maxValue then (gr.1, some result)
    else innerNext fuel gr.1

/-- `XorShiftGenerator.__next__` (lines 163-179): when the call counter is 0
the state is reset to the seed and the first-call flag raised; the counter
advances modulo `|max - min| + 1`; then `__inner_next__` draws the value. -/
def next (fuel : Nat) (g : XorShiftGenerator) : XorShiftGenerator × Option Int :=
  let g1 :=
    if g.nbCall = 0 then { g with firstCall := true, state := g.seed }
    else { g with firstCall := false }
  let nbValues := (g.maxValue - g.minValue).natAbs + 1
  innerNext fuel { g1 with nbCall := (g1.nbCall + 1) % nbValues }

/-- `XorShiftGenerator.get_state` (lines 205-218). -/
def get_state (g : XorShiftGenerator) : Nat × Bool :=
  (g.state, g.firstCall)

/-- `XorShiftGenerator.set_state` (lines 220-237). -/
def set_state (g : XorShiftGenerator) (s : Nat × Bool) : XorShiftGenerator :=
  { g with state := s.1, firstCall := s.2 }

/-- `nb_values = abs(self._maxValue - self._minValue) + 1` (line 177),
the modulus of the call counter. -/
def period (g : XorShiftGenerator) : Nat :=
  (g.maxValue - g.minValue).natAbs + 1

/-- Apply `next` to the generator `k` times, keeping the updated generator. -/
def iterN (fuel : Nat) : Nat → XorShiftGenerator → XorShiftGenerator
  | 0, g => g
  | k + 1, g => iterN fuel k (next fuel g).1

/-- Value returned by the `(k+1)`-th call to `next` (0-indexed draw `k`). -/
def valueAt (fuel : Nat) (g : XorShiftGenerator) (k : Nat) : Option Int :=
  (next fuel (iterN fuel k g)).2

/-- `XorShiftGenerator.__init__` (lines 122-161): rejects `seed == 0`,
stores the configuration (`_state = seed`, `_firstCall = True`,
`_nbCall = 0`), computes the bitsize class of `|max - min| + 1`, rounds a
4-bit class up to 8, and rejects any width with no xorshift transform. -/
def construct (seed : Nat) (minValue maxValue : Int) (signed : Bool) :
    Except GenError XorShiftGenerator :=
  if seed = 0 then .error .invalidSeed
  else
    let b0 := computeUnitSize ((maxValue - minValue).natAbs + 1)
    let b := if b0 = 4 then 8 else b0
    if b = 8 ∨ b = 16 ∨ b = 32 ∨ b = 64 then
      .ok { seed := seed, minValue := minValue, maxValue := maxValue,
            signed := signed, bitsize := b, state := seed,
            firstCall := true, nbCall := 0 }
    else .error .unsupportedBitWidth

/-- The configuration of a generator: the attributes fixed by `__init__`
that `__next__` and `__inner_next__` never mutate. -/
def config (g : XorShiftGenerator) : Nat × Int × Int × Bool × Nat :=
  (g.seed, g.minValue, g.maxValue, g.signed, g.bitsize)

end XorShiftGenerator

end Netzob

namespace Netzob

/-! ## Data leaf parsing (Data.py, `domainCMP`, lines 159-189) -/

/-- The slice of the Type Descriptor plug-in contract consumed by
`Data.domainCMP`: `self.dataType.size` as `(minSize, maxSize)` bit bounds
(`None` max meaning unbounded) and the `canParse` acceptance predicate over
bit sequences (bits are modelled as `List Bool`). -/
structure DataType where
  size : Nat × Option Nat
  canParse : List Bool → Bool

/-- Errors of the parse contract; the spec's taxonomy names
`NoParseCandidate` for "content present but no size/type match". -/
inductive ParseError where
  | noParseCandidate
deriving DecidableEq

/-- A parsing path as seen by `Data.domainCMP`: the remaining bit content at
the path's cursor (`parsingPath.getData(self)`) and the results accumulated
by `addResult`. Each yielded branch is a duplicate extended with the
accepted slice. -/
structure ParsingPath where
  remainingData : List Bool
  results : List (List Bool)
deriving DecidableEq

/-- `newParsingPath.addResult(self, content[:size].copy())`. -/
def ParsingPath.addResult (p : ParsingPath) (r : List Bool) : ParsingPath :=
  { p with results := p.results ++ [r] }

/-- Python's `range(hi, lo - 1, -1)`: the sizes `hi, hi-1, ..., lo` tried
longest-first (empty when `hi < lo`). -/
def rangeDown (hi lo : Nat) : List Nat :=
  (List.range (hi + 1 - lo)).map (fun i => hi - i)

/-- `maxSize = len(content) if maxSize is None` (unbounded upper bound). -/
def effectiveMaxSize (d : DataType) (content : List Bool) : Nat :=
  match d.size.2 with
  | some m => m
  | none => content.length

/-- `Data.domainCMP` (lines 159-189): content shorter than `minSize` only
logs and yields nothing; otherwise sizes from `min(maxSize, len(content))`
down to `minSize` are tried, a branch being yielded for every size that is
`0` or accepted by `canParse`. The body raises no exception besides the
`None`-path guard, which the embedding excludes by construction; the
`Except` result records that no error value is ever produced. -/
def Data.domainCMP (d : DataType) (parsingPath : ParsingPath) :
    Except ParseError (List ParsingPath) :=
  let content := parsingPath.remainingData
  let minSize := d.size.1
  let maxSize := effectiveMaxSize d content
  if content.length < minSize then
    .ok []
  else
    .ok ((rangeDown (min maxSize content.length) minSize).filterMap
      (fun size =>
        if size = 0 ∨ d.canParse (content.take size) = true then
          some (parsingPath.addResult (content.take size))
        else none))

/-! ## Symbol equality (Symbol.py, lines 166-178) -/

/-- A Field participating in a Symbol. Only its isolated structure matters
to the equality claim; it names one variable of the message format. -/
structure Field where
  name : String
deriving DecidableEq

/-- A Symbol: an ordered sequence of Fields plus a name. The example
messages attached to a Symbol play no role in equality. -/
structure Symbol where
  name : String
  fields : List Field
deriving DecidableEq

/-- An arbitrary Python value as discriminated by `Symbol.__eq__`'s
`isinstance(other, Symbol)` test: either a `Symbol` instance or any
non-`Symbol` value (including `None`). -/
inductive PyValue where
  | symbol (s : Symbol)
  | nonSymbol
deriving DecidableEq

/-- `Symbol.__eq__` (lines 166-171): `False` unless `other` is a `Symbol`,
then pure name comparison. -/
def Symbol.eq (s : Symbol) (other : PyValue) : Bool :=
  match other with
  | .symbol t => s.name == t.name
  | .nonSymbol => false

/-- `Symbol.__ne__` (lines 173-178): `True` for `None` and non-`Symbol`
values, otherwise name disequality. -/
def Symbol.ne (s : Symbol) (other : PyValue) : Bool :=
  match other with
  | .symbol t => t.name != s.name
  | .nonSymbol => true

/-! ## Determinist integer mutator (DeterministIntegerMutator.py) -/

/-- Modelled from the spec: the `Integer` type descriptor (not under `src/`)
exposes storage bounds — the full range of the unit size under the declared
signedness — and logical value bounds — the optional construction interval,
defaulting to the storage bounds ("storage bounds are always supersets of
logical value bounds"). -/
structure IntegerType where
  unitSize : Nat
  sign : Bool
  interval : Option (Int × Int)
deriving DecidableEq

/-- Modelled from the spec: `Integer.getMinStorageValue`. -/
def IntegerType.getMinStorageValue (t : IntegerType) : Int :=
  if t.sign then -(2 ^ (t.unitSize - 1)) else 0

/-- Modelled from the spec: `Integer.getMaxStorageValue`. -/
def IntegerType.getMaxStorageValue (t : IntegerType) : Int :=
  if t.sign then 2 ^ (t.unitSize - 1) - 1 else 2 ^ t.unitSize - 1

/-- Modelled from the spec: `Integer.getMinValue`, the logical lower bound. -/
def IntegerType.getMinValue (t : IntegerType) : Int :=
  match t.interval with
  | some iv => iv.1
  | none => t.getMinStorageValue

/-- Modelled from the spec: `Integer.getMaxValue`, the logical upper bound. -/
def IntegerType.getMaxValue (t : IntegerType) : Int :=
  match t.interval with
  | some iv => iv.2
  | none => t.getMaxStorageValue

/-- The `interval` argument of `DeterministIntegerMutator.__init__`: an
explicit `(int, int)` tuple, the `Mutator.DEFAULT_INTERVAL` marker, the
`Mutator.FULL_INTERVAL` marker, or the `None` default. -/
inductive IntervalArg where
  | explicitInterval (lo hi : Int)
  | defaultInterval
  | fullInterval
  | noInterval
deriving DecidableEq

/-- Interval resolution of `DeterministIntegerMutator.__init__`
(lines 104-120): an explicit tuple is clamped into the storage bounds,
`DEFAULT_INTERVAL`/`None` resolve to the logical value bounds, and
`FULL_INTERVAL` to the storage bounds. -/
def resolveInterval (dataType : IntegerType) (interval : IntervalArg) : Int × Int :=
  match interval with
  | .explicitInterval lo hi =>
    (max lo dataType.getMinStorageValue, min hi dataType.getMaxStorageValue)
  | .defaultInterval | .noInterval =>
    (dataType.getMinValue, dataType.getMaxValue)
  | .fullInterval =>
    (dataType.getMinStorageValue, dataType.getMaxStorageValue)

/-- Modelled from the spec: `DeterministGenerator` (not under `src/`) keeps
the precomputed ordered list of determinist values and a read cursor;
`getNewValue` returns the value at the cursor modulo the list length and
advances the cursor. -/
structure DeterministGenerator where
  values : List Int
  position : Nat
deriving DecidableEq

/-- Modelled from the spec: `DeterministGenerator.getNewValue`. -/
def DeterministGenerator.getNewValue (g : DeterministGenerator) :
    Int × DeterministGenerator :=
  (g.values.getD (g.position % g.values.length) 0,
   { g with position := g.position + 1 })

/-- The failure of `DeterministIntegerMutator.generate` at the counter cap
(`raise Exception("Max mutation counter reached")`), named
`MutationBudgetExceeded` by the spec. -/
inductive MutatorError where
  | mutationBudgetExceeded
deriving DecidableEq

/-- The mutator state used by `generate`: the mutation counter and its cap
(`_currentCounter`, `counterMax`, starting at 0 per the base `Mutator`
class), and the wrapped determinist generator `_ng`. -/
structure DeterministIntegerMutator where
  counterMax : Nat
  currentCounter : Nat
  ng : DeterministGenerator
deriving DecidableEq

/-- `DeterministIntegerMutator.generate` (lines 172-187): below the cap the
counter is incremented and the next determinist value drawn (its
`Integer.decode` byte encoding is irrelevant to the counter contract and
kept as the raw integer here); at the cap the call fails. -/
def DeterministIntegerMutator.generate (m : DeterministIntegerMutator) :
    Except MutatorError (Int × DeterministIntegerMutator) :=
  if m.currentCounter < m.counterMax then
    let vg := m.ng.getNewValue
    .ok (vg.1, { m with currentCounter := m.currentCounter + 1, ng := vg.2 })
  else
    .error .mutationBudgetExceeded

/-- Run `generate` `k` times in sequence, propagating the first failure. -/
def DeterministIntegerMutator.generateN :
    Nat → DeterministIntegerMutator → Except MutatorError DeterministIntegerMutator
  | 0, m => .ok m
  | k + 1, m =>
    match m.generate with
    | .ok vm => DeterministIntegerMutator.generateN k vm.2
    | .error e => .error e

end Netzob

/-! Theorems: helper lemmas first, then one theorem per claim (with
witnesses and counterexamples where required). -/

namespace Netzob

namespace XorShiftGenerator

lemma config_components {g h : XorShiftGenerator} (hc : config g = config h) :
    g.seed = h.seed ∧ g.minValue = h.minValue ∧ g.maxValue = h.maxValue ∧
      g.signed = h.signed ∧ g.bitsize = h.bitsize := by
  simpa [config, Prod.ext_iff] using hc

lemma period_congr {g h : XorShiftGenerator} (hc : config g = config h) :
    period g = period h := by
  obtain ⟨-, e2, e3, -, -⟩ := config_components hc
  unfold period
  rw [e2, e3]

lemma innerNext_config (fuel : Nat) :
    ∀ g : XorShiftGenerator,
      config (innerNext fuel g).1 = config g ∧ (innerNext fuel g).1.nbCall = g.nbCall := by
  induction fuel with
  | zero => intro g; exact ⟨rfl, rfl⟩
  | succ n ih =>
    intro g
    cases hf : g.firstCall <;>
    · simp only [innerNext, hf, Bool.false_eq_true, ite_true, ite_false, if_true, if_false]
      split <;> split <;> first
        | exact ⟨rfl, rfl⟩
        | exact ih _

lemma next_config (fuel : Nat) (g : XorShiftGenerator) :
    config (next fuel g).1 = config g := by
  by_cases h : g.nbCall = 0 <;>
  · simp only [next, h]
    exact (innerNext_config fuel _).1

lemma next_nbCall (fuel : Nat) (g : XorShiftGenerator) :
    ((next fuel g).1).nbCall = (g.nbCall + 1) % period g := by
  by_cases h : g.nbCall = 0 <;>
  · simp only [next, h, if_true, if_false, ite_true, ite_false]
    rw [(innerNext_config fuel _).2]
    simp [period, h]

lemma iterN_succ (fuel k : Nat) (g : XorShiftGenerator) :
    iterN fuel (k + 1) g = (next fuel (iterN fuel k g)).1 := by
  induction k generalizing g with
  | zero => rfl
  | succ k ih =>
    show iterN fuel (k + 1) (next fuel g).1 = _
    rw [ih]
    rfl

lemma iterN_config (fuel k : Nat) (g : XorShiftGenerator) :
    config (iterN fuel k g) = config g := by
  induction k generalizing g with
  | zero => rfl
  | succ k ih =>
    show config (iterN fuel k (next fuel g).1) = config g
    rw [ih, next_config]

lemma iterN_add (fuel a b : Nat) (g : XorShiftGenerator) :
    iterN fuel (a + b) g = iterN fuel b (iterN fuel a g) := by
  induction a generalizing g with
  | zero => rw [Nat.zero_add]; rfl
  | succ a ih =>
    have h1 : a + 1 + b = (a + b) + 1 := by omega
    rw [h1]
    show iterN fuel (a + b) (next fuel g).1 = _
    rw [ih]
    rfl

lemma iterN_nbCall (fuel : Nat) {g : XorShiftGenerator} (h0 : g.nbCall = 0) (k : Nat) :
    (iterN fuel k g).nbCall = k % period g := by
  induction k with
  | zero => simpa using h0
  | succ k ih =>
    rw [iterN_succ, next_nbCall, ih, period_congr (iterN_config fuel k g)]
    conv_rhs => rw [Nat.add_mod]
    rw [Nat.add_mod (k % period g) 1, Nat.mod_mod_of_dvd _ dvd_rfl]

lemma next_zero_eq (fuel : Nat) {g : XorShiftGenerator} (h0 : g.nbCall = 0) :
    next fuel g =
      innerNext fuel
        ⟨g.seed, g.minValue, g.maxValue, g.signed, g.bitsize, g.seed, true, 1 % period g⟩ := by
  simp only [next, h0, if_true, ite_true, eq_self_iff_true]
  rfl

lemma next_of_counter_zero (fuel : Nat) {g h : XorShiftGenerator}
    (hc : config g = config h) (hg : g.nbCall = 0) (hh : h.nbCall = 0) :
    next fuel g = next fuel h := by
  obtain ⟨e1, e2, e3, e4, e5⟩ := config_components hc
  rw [next_zero_eq fuel hg, next_zero_eq fuel hh, e1, e2, e3, e4, e5,
    period_congr hc]

lemma valueAt_congr {fuel : Nat} {g h : XorShiftGenerator}
    (hn : next fuel g = next fuel h) (k : Nat) :
    valueAt fuel g k = valueAt fuel h k := by
  cases k with
  | zero =>
    show (next fuel (iterN fuel 0 g)).2 = (next fuel (iterN fuel 0 h)).2
    rw [show iterN fuel 0 g = g from rfl, show iterN fuel 0 h = h from rfl, hn]
  | succ k =>
    show (next fuel (iterN fuel k (next fuel g).1)).2
        = (next fuel (iterN fuel k (next fuel h).1)).2
    rw [hn]

lemma valueAt_period {fuel : Nat} {g : XorShiftGenerator} (h0 : g.nbCall = 0) (k : Nat) :
    valueAt fuel g (k + period g) = valueAt fuel g k := by
  have hcomm : k + period g = period g + k := Nat.add_comm _ _
  have hH : iterN fuel (period g + k) g = iterN fuel k (iterN fuel (period g) g) :=
    iterN_add fuel (period g) k g
  have hcfg : config (iterN fuel (period g) g) = config g := iterN_config fuel _ g
  have hnb : (iterN fuel (period g) g).nbCall = 0 := by
    rw [iterN_nbCall fuel h0, Nat.mod_self]
  have hnext : next fuel (iterN fuel (period g) g) = next fuel g :=
    next_of_counter_zero fuel hcfg hnb h0
  show (next fuel (iterN fuel (k + period g) g)).2 = valueAt fuel g k
  rw [hcomm, hH]
  exact valueAt_congr hnext k

lemma toSigned_zero (w : Nat) : toSigned w 0 = 0 := by
  have hp : (0 : Nat) < 2 ^ (w - 1) := by positivity
  simp [toSigned, hp]

lemma next_zero_value (fuel : Nat) {g : XorShiftGenerator} (h0 : g.nbCall = 0)
    (hmin : g.minValue ≤ 0) (hmax : 0 ≤ g.maxValue) :
    (next (fuel + 1) g).2 = some 0 := by
  rw [next_zero_eq (fuel + 1) h0]
  simp only [innerNext, toSigned_zero]
  rw [if_pos]
  · cases hs : g.signed <;> simp [hs, toSigned_zero]
  · constructor <;> cases hs : g.signed <;> simp [hs, toSigned_zero, hmin, hmax]

end XorShiftGenerator

end Netzob

namespace Netzob

namespace XorShiftGenerator

lemma innerNext_neg_interval (fuel : Nat) :
    ∀ g : XorShiftGenerator, g.minValue = -20 → g.maxValue = -20 → g.signed = false →
      (innerNext fuel g).2 = none := by
  induction fuel with
  | zero => intro g _ _ _; rfl
  | succ n ih =>
    intro g hmin hmax hs
    have hcond : ∀ raw : Nat, ¬(g.minValue ≤ (raw : Int) ∧ (raw : Int) ≤ g.maxValue) := by
      intro raw hcon
      rw [hmin, hmax] at hcon
      have hnn : (0 : Int) ≤ (raw : Int) := Int.natCast_nonneg raw
      omega
    cases hf : g.firstCall <;>
    · simp only [innerNext, hf, hs, Bool.false_eq_true, ite_true, ite_false, if_true,
        if_false]
      rw [if_neg (hcond _)]
      exact ih _ hmin hmax rfl

/-- C5: a `XorShiftGenerator` whose interval `[-20, -20]` is unreachable for
an unsigned draw returns the no-value result `None` from `next()` — at any
point of the generator's life and for any recursion budget — rather than
raising to the caller or failing to terminate. -/
theorem incompatible_interval_yields_none (g : XorShiftGenerator)
    (hmin : g.minValue = -20) (hmax : g.maxValue = -20) (hs : g.signed = false)
    (fuel : Nat) :
    (next fuel g).2 = none := by
  by_cases hz : g.nbCall = 0 <;>
  · simp only [next, hz, ite_true, ite_false, if_true, if_false, eq_self_iff_true]
    exact innerNext_neg_interval fuel _ hmin hmax hs

/-- Witness for C5 at the generator built by `construct 14 (-20) (-20) false`. -/
theorem incompatible_interval_yields_none_witness :
    construct 14 (-20) (-20) false = .ok ⟨14, -20, -20, false, 8, 14, true, 0⟩ ∧
    (⟨14, -20, -20, false, 8, 14, true, 0⟩ : XorShiftGenerator).minValue = -20 ∧
    (next 5 ⟨14, -20, -20, false, 8, 14, true, 0⟩).2 = none :=
  ⟨by decide, rfl, incompatible_interval_yields_none _ rfl rfl rfl 5⟩

lemma innerNext_in_interval (fuel : Nat) :
    ∀ (g : XorShiftGenerator) (v : Int), (innerNext fuel g).2 = some v →
      g.minValue ≤ v ∧ v ≤ g.maxValue := by
  induction fuel with
  | zero => intro g v h; simp [innerNext] at h
  | succ n ih =>
    intro g v h
    cases hf : g.firstCall <;> cases hsg : g.signed <;>
    · simp only [innerNext, hf, hsg, Bool.false_eq_true, ite_true, ite_false, if_true,
        if_false] at h
      split at h
      · rename_i hP
        injection h with h'
        rw [← h']
        exact hP
      · have hrec := ih _ v h
        exact hrec

/-- C7: whenever `next()` returns an actual value (not the no-value result),
that value lies inside the configured interval `[minValue, maxValue]`;
out-of-interval raw draws are redrawn, never returned. -/
theorem next_interval_containment (fuel : Nat) (g : XorShiftGenerator) (v : Int)
    (h : (next fuel g).2 = some v) :
    g.minValue ≤ v ∧ v ≤ g.maxValue := by
  by_cases hz : g.nbCall = 0 <;>
  · simp only [next, hz, ite_true, ite_false, if_true, if_false, eq_self_iff_true] at h
    have hrec := innerNext_in_interval fuel _ v h
    exact hrec

/-- Witness for C7 at the seed-14 generator over `[0, 255]`. -/
theorem next_interval_containment_witness :
    (next 2 ⟨14, 0, 255, false, 8, 14, true, 0⟩).2 = some 0 ∧
    ((0 : Int) ≤ 0 ∧ (0 : Int) ≤ 255) :=
  ⟨by decide, next_interval_containment 2 ⟨14, 0, 255, false, 8, 14, true, 0⟩ 0 (by decide)⟩

/-- C3: for `seed=14, minValue=0, maxValue=255` the first three draws are
`0` (the forced first value), `126` and `149`, matching the 8-bit xorshift
transitions `xorshift8 14 = 126` and `xorshift8 126 = 149`. -/
theorem first_three_draws_seed14 :
    (construct 14 0 255 false).map
        (fun g => [valueAt 10 g 0, valueAt 10 g 1, valueAt 10 g 2])
      = .ok [some 0, some 126, some 149]
    ∧ xorshift8 14 = 126 ∧ xorshift8 126 = 149 := by decide

/-- C9: constructing a `XorShiftGenerator` with `seed = 0` fails with the
invalid-seed error for every choice of interval and signedness. -/
theorem construct_zero_seed_fails (minValue maxValue : Int) (signed : Bool) :
    construct 0 minValue maxValue signed = .error .invalidSeed := rfl

/-- C1 (amended): `get_state()` captures `(state, firstCall)` but not the
call counter `_nbCall`; restoring a saved state reproduces the continuation
exactly when the counter at restore time equals the counter at save time
(e.g. after a multiple of `period` further draws), in which case the
restored generator coincides with the saved one and all further draws
agree. -/
theorem get_set_state_roundtrip_of_counter_eq (g : XorShiftGenerator) (fuel j : Nat)
    (hc : (iterN fuel j g).nbCall = g.nbCall) :
    set_state (iterN fuel j g) (get_state g) = g ∧
    ∀ k, valueAt fuel (set_state (iterN fuel j g) (get_state g)) k = valueAt fuel g k := by
  obtain ⟨e1, e2, e3, e4, e5⟩ := config_components (iterN_config fuel j g)
  have hgen : set_state (iterN fuel j g) (get_state g) = g := by
    apply XorShiftGenerator.ext <;>
      simp [set_state, get_state, e1, e2, e3, e4, e5, hc]
  exact ⟨hgen, fun k => by rw [hgen]⟩

/-- Witness for C1's amended round-trip at the seed-14 generator. -/
theorem get_set_state_roundtrip_witness :
    (iterN 1 0 ⟨14, 0, 255, false, 8, 14, true, 0⟩).nbCall
        = (⟨14, 0, 255, false, 8, 14, true, 0⟩ : XorShiftGenerator).nbCall ∧
    (set_state (iterN 1 0 ⟨14, 0, 255, false, 8, 14, true, 0⟩)
          (get_state ⟨14, 0, 255, false, 8, 14, true, 0⟩)
        = ⟨14, 0, 255, false, 8, 14, true, 0⟩ ∧
      ∀ k, valueAt 1 (set_state (iterN 1 0 ⟨14, 0, 255, false, 8, 14, true, 0⟩)
          (get_state ⟨14, 0, 255, false, 8, 14, true, 0⟩)) k
        = valueAt 1 ⟨14, 0, 255, false, 8, 14, true, 0⟩ k) :=
  ⟨rfl, get_set_state_roundtrip_of_counter_eq ⟨14, 0, 255, false, 8, 14, true, 0⟩ 1 0 rfl⟩

/-- C1 (counterexample): over the interval `[0, 1]` with seed 14 the period
is 2. Saving the state after the first draw, drawing once more (value `1`),
restoring, and drawing again yields `0`, not the `1` the original
continuation produced: `get_state`/`set_state` misses the `_nbCall`
counter, so restoring across a period boundary does not reproduce the
continuation. -/
theorem get_set_state_not_complete_state :
    construct 14 0 1 false = .ok ⟨14, 0, 1, false, 8, 14, true, 0⟩ ∧
    (next 300 (next 300 ⟨14, 0, 1, false, 8, 14, true, 0⟩).1).2 = some 1 ∧
    (next 300 (set_state (next 300 (next 300 ⟨14, 0, 1, false, 8, 14, true, 0⟩).1).1
        (get_state (next 300 ⟨14, 0, 1, false, 8, 14, true, 0⟩).1))).2 = some 0 ∧
    (next 300 (set_state (next 300 (next 300 ⟨14, 0, 1, false, 8, 14, true, 0⟩).1).1
        (get_state (next 300 ⟨14, 0, 1, false, 8, 14, true, 0⟩).1))).2
      ≠ (next 300 (next 300 ⟨14, 0, 1, false, 8, 14, true, 0⟩).1).2 := by decide

/-- C10 (amended): the call counter advances modulo `period = |max-min|+1`;
a call whose counter is 0 resets the state to the seed with the first-call
flag raised; the resulting value sequence is periodic with period `period`;
and every period begins with the forced value `0` provided `0` lies inside
`[minValue, maxValue]` (otherwise the forced `0` is rejected by the
interval filter and the period instead begins with a redrawn value). -/
theorem counter_period_structure (g : XorShiftGenerator) (fuel : Nat)
    (h0 : g.nbCall = 0) :
    (∀ h : XorShiftGenerator, ((next fuel h).1).nbCall = (h.nbCall + 1) % period h)
    ∧ (∀ h : XorShiftGenerator, h.nbCall = 0 →
        next fuel h =
          innerNext fuel
            ⟨h.seed, h.minValue, h.maxValue, h.signed, h.bitsize, h.seed, true,
              1 % period h⟩)
    ∧ (∀ k, valueAt fuel g (k + period g) = valueAt fuel g k)
    ∧ (g.minValue ≤ 0 → 0 ≤ g.maxValue → ∀ k, k % period g = 0 →
        valueAt (fuel + 1) g k = some 0) := by
  refine ⟨fun h => next_nbCall fuel h, fun h hh => next_zero_eq fuel hh,
    fun k => valueAt_period h0 k, fun hmin hmax k hk => ?_⟩
  have hnb : (iterN (fuel + 1) k g).nbCall = 0 := by
    rw [iterN_nbCall (fuel + 1) h0, hk]
  have hcfg := config_components (iterN_config (fuel + 1) k g)
  show (next (fuel + 1) (iterN (fuel + 1) k g)).2 = some 0
  exact next_zero_value fuel hnb (by rw [hcfg.2.1]; exact hmin)
    (by rw [hcfg.2.2.1]; exact hmax)

/-- Witness for C10's amended statement at the seed-14 generator over
`[0, 255]`: the value sequence repeats after 256 draws and the first draw
of a period is the forced 0. -/
theorem counter_period_structure_witness :
    valueAt 2 ⟨14, 0, 255, false, 8, 14, true, 0⟩
        (0 + period ⟨14, 0, 255, false, 8, 14, true, 0⟩)
      = valueAt 2 ⟨14, 0, 255, false, 8, 14, true, 0⟩ 0 ∧
    valueAt (2 + 1) ⟨14, 0, 255, false, 8, 14, true, 0⟩ 0 = some 0 :=
  ⟨(counter_period_structure ⟨14, 0, 255, false, 8, 14, true, 0⟩ 2 rfl).2.2.1 0,
   (counter_period_structure ⟨14, 0, 255, false, 8, 14, true, 0⟩ 2 rfl).2.2.2
     (by decide) (by decide) 0 (by decide)⟩

/-- C10 (counterexample): for the interval `[126, 126]` (period 1, every
call a period start with counter 0) the first draw is `126`, not the forced
`0`: when `0` is outside the interval a period does not begin with `0`. -/
theorem period_start_not_zero_counterexample :
    (⟨14, 126, 126, false, 8, 14, true, 0⟩ : XorShiftGenerator).nbCall = 0 ∧
    construct 14 126 126 false = .ok ⟨14, 126, 126, false, 8, 14, true, 0⟩ ∧
    valueAt 5 ⟨14, 126, 126, false, 8, 14, true, 0⟩ 0 = some 126 ∧
    valueAt 5 ⟨14, 126, 126, false, 8, 14, true, 0⟩ 0 ≠ some 0 := by decide

end XorShiftGenerator

end Netzob

namespace Netzob

/-- C2 (amended): `Data.domainCMP` treats both failure modes silently — it
raises no error at all. Content shorter than `minSize` yields no branch, and
content of sufficient length for which no size in the tried range is
accepted (by the `size == 0` escape or by `canParse`) also yields no
branch; neither case produces an error value such as `NoParseCandidate`. -/
theorem domainCMP_silent_no_match (d : DataType) (p : ParsingPath) :
    (p.remainingData.length < d.size.1 → Data.domainCMP d p = .ok []) ∧
    ((∀ size ∈ rangeDown (min (effectiveMaxSize d p.remainingData)
          p.remainingData.length) d.size.1,
        ¬(size = 0 ∨ d.canParse (p.remainingData.take size) = true)) →
      Data.domainCMP d p = .ok []) := by
  constructor
  · intro h
    simp only [Data.domainCMP]
    rw [if_pos h]
  · intro h
    simp only [Data.domainCMP]
    by_cases hlt : p.remainingData.length < d.size.1
    · rw [if_pos hlt]
    · rw [if_neg hlt]
      congr 1
      rw [List.filterMap_eq_nil_iff]
      intro size hs
      rw [if_neg (h size hs)]

/-- Witness for C2's amended statement: too-short content, and sufficient
content rejected at every size, both yield the empty branch list. -/
theorem domainCMP_silent_no_match_witness :
    Data.domainCMP ⟨(2, some 2), fun _ => false⟩ ⟨[true], []⟩ = .ok [] ∧
    Data.domainCMP ⟨(2, some 2), fun _ => false⟩ ⟨[true, true], []⟩ = .ok [] :=
  ⟨(domainCMP_silent_no_match ⟨(2, some 2), fun _ => false⟩ ⟨[true], []⟩).1 (by decide),
   (domainCMP_silent_no_match ⟨(2, some 2), fun _ => false⟩ ⟨[true, true], []⟩).2 (by decide)⟩

/-- C2 (counterexample): with `size = (2, 2)`, a `canParse` rejecting
everything, and 2 bits of content — content not shorter than `minSize` and
no size in range satisfying the predicate — `domainCMP` returns the empty
branch list `.ok []`, not a `NoParseCandidate` error. -/
theorem domainCMP_no_error_counterexample :
    2 ≤ ([true, true] : List Bool).length ∧
    (∀ size ∈ rangeDown (min (effectiveMaxSize ⟨(2, some 2), fun _ => false⟩ [true, true])
        ([true, true] : List Bool).length) 2,
      ¬(size = 0 ∨
        (DataType.mk (2, some 2) (fun _ => false)).canParse ([true, true].take size) = true)) ∧
    Data.domainCMP ⟨(2, some 2), fun _ => false⟩ ⟨[true, true], []⟩ = .ok [] ∧
    Data.domainCMP ⟨(2, some 2), fun _ => false⟩ ⟨[true, true], []⟩
      ≠ .error ParseError.noParseCandidate := by decide

/-- C8: `Symbol.__eq__` is name identity — `s == o` holds exactly when `o`
is a `Symbol` with the same name; the field structure is ignored in both
directions, and `__ne__` is the boolean negation of `__eq__`. -/
theorem symbol_eq_name_identity :
    (∀ (s : Symbol) (o : PyValue),
        Symbol.eq s o = true ↔ ∃ t, o = PyValue.symbol t ∧ s.name = t.name)
    ∧ (∀ s t : Symbol, s.fields = t.fields → s.name ≠ t.name →
        Symbol.eq s (PyValue.symbol t) = false)
    ∧ (∀ s t : Symbol, s.name = t.name → Symbol.eq s (PyValue.symbol t) = true)
    ∧ (∀ (s : Symbol) (o : PyValue), Symbol.ne s o = !Symbol.eq s o) := by
  refine ⟨?_, ?_, ?_, ?_⟩
  · intro s o
    cases o with
    | symbol t => simp [Symbol.eq]
    | nonSymbol => simp [Symbol.eq]
  · intro s t _ hn
    simp [Symbol.eq, hn]
  · intro s t hn
    simp [Symbol.eq, hn]
  · intro s o
    cases o with
    | symbol t =>
      by_cases h : s.name = t.name
      · simp [Symbol.eq, Symbol.ne, h]
      · have h1 : (s.name == t.name) = false := beq_eq_false_iff_ne.mpr h
        have h2 : (t.name == s.name) = false := beq_eq_false_iff_ne.mpr (Ne.symm h)
        simp [Symbol.eq, Symbol.ne, bne, h1, h2]
    | nonSymbol => rfl

/-- Witness for C8: structurally identical Symbols named `A` and `B` are
not equal; structurally different Symbols both named `A` are equal. -/
theorem symbol_eq_name_identity_witness :
    Symbol.eq ⟨"A", [⟨"f"⟩]⟩ (PyValue.symbol ⟨"B", [⟨"f"⟩]⟩) = false ∧
    Symbol.eq ⟨"A", []⟩ (PyValue.symbol ⟨"A", [⟨"x"⟩]⟩) = true :=
  ⟨symbol_eq_name_identity.2.1 ⟨"A", [⟨"f"⟩]⟩ ⟨"B", [⟨"f"⟩]⟩ rfl (by decide),
   symbol_eq_name_identity.2.2.1 ⟨"A", []⟩ ⟨"A", [⟨"x"⟩]⟩ rfl⟩

/-- C4: the three interval-resolution policies of
`DeterministIntegerMutator.__init__`: an explicit tuple is clamped into
the storage bounds (hence always within them), `DEFAULT_INTERVAL` or no
interval resolve to the logical value bounds — `(0, 255)` for an 8-bit
unsigned integer type — and `FULL_INTERVAL` resolves to the storage
bounds. -/
theorem determinist_interval_resolution :
    (∀ (t : IntegerType) (lo hi : Int),
        resolveInterval t (.explicitInterval lo hi)
          = (max lo t.getMinStorageValue, min hi t.getMaxStorageValue))
    ∧ (∀ (t : IntegerType) (lo hi : Int),
        t.getMinStorageValue ≤ (resolveInterval t (.explicitInterval lo hi)).1 ∧
        (resolveInterval t (.explicitInterval lo hi)).2 ≤ t.getMaxStorageValue)
    ∧ (∀ t : IntegerType,
        resolveInterval t .defaultInterval = (t.getMinValue, t.getMaxValue) ∧
        resolveInterval t .noInterval = (t.getMinValue, t.getMaxValue))
    ∧ (∀ t : IntegerType,
        resolveInterval t .fullInterval = (t.getMinStorageValue, t.getMaxStorageValue))
    ∧ resolveInterval ⟨8, false, none⟩ .noInterval = (0, 255)
    ∧ resolveInterval ⟨8, false, none⟩ .defaultInterval = (0, 255)
    ∧ resolveInterval ⟨8, false, none⟩ (.explicitInterval (-10) 5) = (0, 5) :=
  ⟨fun _ _ _ => rfl, fun _ _ _ => ⟨le_max_right _ _, min_le_right _ _⟩,
   fun _ => ⟨rfl, rfl⟩, fun _ => rfl, by decide, by decide, by decide⟩

lemma generateN_ok :
    ∀ (k : Nat) (m : DeterministIntegerMutator), m.currentCounter + k ≤ m.counterMax →
      ∃ m', DeterministIntegerMutator.generateN k m = .ok m' ∧
        m'.currentCounter = m.currentCounter + k ∧ m'.counterMax = m.counterMax := by
  intro k
  induction k with
  | zero => intro m _; exact ⟨m, rfl, by omega, rfl⟩
  | succ k ih =>
    intro m h
    have hlt : m.currentCounter < m.counterMax := by omega
    obtain ⟨m', h1, h2, h3⟩ :=
      ih { m with currentCounter := m.currentCounter + 1, ng := m.ng.getNewValue.2 }
        (by show m.currentCounter + 1 + k ≤ m.counterMax; omega)
    refine ⟨m', ?_, ?_, h3⟩
    · simp only [DeterministIntegerMutator.generateN, DeterministIntegerMutator.generate,
        hlt, ite_true]
      exact h1
    · have h2x : m'.currentCounter = m.currentCounter + 1 + k := h2
      omega

lemma generateN_exhaust :
    ∀ (k : Nat) (m : DeterministIntegerMutator), m.currentCounter + k = m.counterMax →
      DeterministIntegerMutator.generateN (k + 1) m = .error .mutationBudgetExceeded := by
  intro k
  induction k with
  | zero =>
    intro m h
    have hnlt : ¬ m.currentCounter < m.counterMax := by omega
    simp [DeterministIntegerMutator.generateN, DeterministIntegerMutator.generate, hnlt]
  | succ k ih =>
    intro m h
    have hlt : m.currentCounter < m.counterMax := by omega
    have hrec :=
      ih { m with currentCounter := m.currentCounter + 1, ng := m.ng.getNewValue.2 }
        (by show m.currentCounter + 1 + k = m.counterMax; omega)
    simp only [DeterministIntegerMutator.generateN, DeterministIntegerMutator.generate,
      hlt, ite_true]
    exact hrec

/-- C6: starting from a fresh mutation counter, every one of the first
`counterMax` calls to `generate()` succeeds, the counter tracking the call
count exactly, and the `(counterMax + 1)`-th call fails with the
mutation-budget-exceeded condition instead of returning a value. -/
theorem mutation_budget (m : DeterministIntegerMutator) (h0 : m.currentCounter = 0) :
    (∀ j, j ≤ m.counterMax →
        ∃ m', DeterministIntegerMutator.generateN j m = .ok m' ∧ m'.currentCounter = j)
    ∧ DeterministIntegerMutator.generateN (m.counterMax + 1) m
        = .error .mutationBudgetExceeded := by
  constructor
  · intro j hj
    obtain ⟨m', h1, h2, _⟩ := generateN_ok j m (by omega)
    exact ⟨m', h1, by omega⟩
  · exact generateN_exhaust m.counterMax m (by omega)

/-- Witness for C6 at a mutator with cap 2 over a two-value list. -/
theorem mutation_budget_witness :
    (⟨2, 0, ⟨[7, 3], 0⟩⟩ : DeterministIntegerMutator).currentCounter = 0 ∧
    ((∀ j, j ≤ (⟨2, 0, ⟨[7, 3], 0⟩⟩ : DeterministIntegerMutator).counterMax →
        ∃ m', DeterministIntegerMutator.generateN j ⟨2, 0, ⟨[7, 3], 0⟩⟩ = .ok m' ∧
          m'.currentCounter = j)
      ∧ DeterministIntegerMutator.generateN
          ((⟨2, 0, ⟨[7, 3], 0⟩⟩ : DeterministIntegerMutator).counterMax + 1)
          ⟨2, 0, ⟨[7, 3], 0⟩⟩ = .error .mutationBudgetExceeded) :=
  ⟨rfl, mutation_budget ⟨2, 0, ⟨[7, 3], 0⟩⟩ rfl⟩

end Netzob
